import Mathlib

/-!
Verification of the adaptive-span local attention layer (`attention.py`):
the `AdaptiveMask` soft-mask component and the `AttentionConv` layer are
shallowly embedded over `ℚ` (exact rational arithmetic in place of the
float tensor runtime), with fallible steps of the original code modelled
by `Except Unit`.
-/

namespace AdaptiveAttn

/-- Binary maximum on `ℚ`, written out so that it evaluates by kernel
reduction. -/
def maxQ (a b : ℚ) : ℚ := if a < b then b else a

/-- Binary minimum on `ℚ`, written out so that it evaluates by kernel
reduction. -/
def minQ (a b : ℚ) : ℚ := if a < b then a else b

/-- `torch.clamp(x, lo, hi)` on a single value. -/
def clampQ (lo hi x : ℚ) : ℚ := minQ hi (maxQ lo x)

/-- `self.mask_template = torch.linspace(1 - max_size, 0, steps=max_size)`
(attention.py line 32).  The linspace step is exactly `1`, so entry `i` is
`1 - max_size + i`. -/
def maskTemplate (M : ℕ) : List ℚ :=
  (List.range M).map fun (i : ℕ) => 1 - (M : ℚ) + (i : ℚ)

/-- Lines 36-38 of `AdaptiveMask.forward` for the default parameter shape
`(1,)`, where `current_val` is the single scalar `span`:
`one_d_mask = (mask_template + current_val * max_size) / ramp_size + 1`,
clamped into `[0, 1]`. -/
def oneDMask (M R : ℕ) (span : ℚ) : List ℚ :=
  (maskTemplate M).map fun t => clampQ 0 1 ((t + span * (M : ℚ)) / (R : ℚ) + 1)

/-- Python slicing `l[-k:]`: for `k = 0` this is `l[0:]`, i.e. the whole
list; otherwise the last `min k (length l)` entries. -/
def pySliceLast {α : Type} (k : ℕ) (l : List α) : List α :=
  if k = 0 then l else l.drop (l.length - k)

/-- `one_d_mask = one_d_mask[-(x.shape[-1]//2):]` (line 41). -/
def ringWeights (M R : ℕ) (span : ℚ) (N : ℕ) : List ℚ :=
  pySliceLast (N / 2) (oneDMask M R span)

/-- The index-pair lists built at loop iteration `i` of
`AdaptiveMask.forward` (lines 50-55), in source order, with
`left = bottom = i` and `right = top = N - 1 - i`:
`[[left, j] for j in range(bottom, top+1)]`,
`[[bottom, j] for j in range(left+1, right+1)]`,
`[[top, j] for j in range(left+1, right+1)]`,
`[[right, j] for j in range(bottom+1, top)]`.
Each pair is `(row, column)` as consumed by `mask[rows, cols]`. -/
def ringIndices (N i : ℕ) : List (ℕ × ℕ) :=
  ((List.range' i (N - 2 * i)).map fun j => (i, j))
    ++ ((List.range' (i + 1) (N - 1 - 2 * i)).map fun j => (i, j))
    ++ ((List.range' (i + 1) (N - 1 - 2 * i)).map fun j => (N - 1 - i, j))
    ++ ((List.range' (i + 1) (N - 2 - 2 * i)).map fun j => (N - 1 - i, j))

/-- `mask[rows, cols] = v` for a scalar `v`: every listed cell is set to
`v`, all other cells keep their previous value. -/
def assignCells (cells : List (ℕ × ℕ)) (v : ℚ) (g : ℕ → ℕ → ℚ) : ℕ → ℕ → ℚ :=
  fun r c => if (r, c) ∈ cells then v else g r c

/-- The ring loop of `AdaptiveMask.forward` (lines 50-60) for the 1-D
`one_d_mask` of the default parameter shape `(1,)`: ring `i` is assigned
the scalar `one_d_mask[i]`.  When the iteration's index list is empty the
unpacking `rows, cols = zip(*indices)` raises, modelled as `.error ()`. -/
def buildMask (N : ℕ) : List ℚ → ℕ → (ℕ → ℕ → ℚ) → Except Unit (ℕ → ℕ → ℚ)
  | [], _, g => .ok g
  | v :: rest, i, g =>
    if ringIndices N i = [] then .error ()
    else buildMask N rest (i + 1) (assignCells (ringIndices N i) v g)

/-- The `N × N` weight grid built by `AdaptiveMask.forward` (default shape
`(1,)`), starting from `torch.ones(N, N)` (line 47). -/
def maskGrid (M R : ℕ) (span : ℚ) (N : ℕ) : Except Unit (ℕ → ℕ → ℚ) :=
  buildMask N (ringWeights M R span N) 0 (fun _ _ => 1)

/-- A single grid cell of `maskGrid`, `0` in the error case. -/
def maskValue (M R : ℕ) (span : ℚ) (N r c : ℕ) : ℚ :=
  match maskGrid M R span N with
  | .ok g => g r c
  | .error _ => 0

/-- `AdaptiveMask.forward` (default shape `(1,)`) on a single 2-D slice
`x` of side `N`: build the grid and return `x * mask`. -/
def adaptive_mask_forward (M R : ℕ) (span : ℚ) (N : ℕ) (x : ℕ → ℕ → ℚ) :
    Except Unit (ℕ → ℕ → ℚ) :=
  (maskGrid M R span N).map fun g => fun r c => x r c * g r c

/-- `tensor.max().item()` over the flattened `current_val` entries
(one entry per group; the trailing singleton dimension of the stored
shape `(groups, 1)` is dropped in the embedding). -/
def listMax : List ℚ → ℚ
  | [] => 0
  | a :: l => l.foldl max a

/-- `AdaptiveMask.get_current_max_size` (attention.py lines 70-75):
`current_size = ceil(current_val.max() * max_size)`, plus `ramp_size`
when `include_ramp`, then clamped by `max(0, min(max_size, ·))`.
`max_size` is kept as an exact rational (`image_size / 2` may be
fractional in the source). -/
def get_current_max_size (max_size : ℚ) (ramp_size : ℕ) (current_val : List ℚ)
    (include_ramp : Bool) : ℚ :=
  maxQ 0 (minQ max_size
    (if include_ramp = true then
      (⌈listMax current_val * max_size⌉ : ℚ) + (ramp_size : ℚ)
    else (⌈listMax current_val * max_size⌉ : ℚ)))

/-- `AdaptiveMask.clamp_param` on a single stored span entry:
`current_val.data.clamp_(0, 1)` (line 86). -/
def clamp_param_val (v : ℚ) : ℚ := clampQ 0 1 v

/-- `mask[rows, cols] = row` for a 1-D value tensor `row`: torch
broadcasts `row` over the indexing result (legal only when the lengths
match or `row` has one element; `buildMaskRows` checks this).  Writes
happen in index-list order, later writes to a duplicated cell win. -/
def assignCellsVec (cells : List (ℕ × ℕ)) (row : List ℚ) (g : ℕ → ℕ → ℚ) :
    ℕ → ℕ → ℚ :=
  cells.enum.foldl
    (fun h kc => fun r c =>
      if r = kc.2.1 ∧ c = kc.2.2 then
        (if row.length = 1 then row.headD 0 else row.getD kc.1 0)
      else h r c)
    g

/-- The ring loop of `AdaptiveMask.forward` when `current_val` has shape
`(groups, 1)` (as constructed by `AttentionConv`, line 120): broadcasting
makes `one_d_mask` 2-D with one row per group, `len(one_d_mask)` is the
group count, and iteration `i` assigns the whole row `one_d_mask[i]` to
the ring cells.  An empty index list makes `zip(*indices)` raise, and a
row that is neither of length 1 nor of the ring's cell count makes the
assignment `mask[rows, cols] = one_d_mask[i]` raise a shape-mismatch
error; both are modelled as `.error ()`. -/
def buildMaskRows (N : ℕ) : List (List ℚ) → ℕ → (ℕ → ℕ → ℚ) →
    Except Unit (ℕ → ℕ → ℚ)
  | [], _, g => .ok g
  | row :: rest, i, g =>
    if ringIndices N i = [] then .error ()
    else if row.length = (ringIndices N i).length ∨ row.length = 1 then
      buildMaskRows N rest (i + 1) (assignCellsVec (ringIndices N i) row g)
    else .error ()

/-- `AdaptiveMask.forward` for parameter shape `(groups, 1)` on a
channel-indexed map `x`: `one_d_mask` has one row per group
(`mask_template + current_val * max_size` broadcasts to
`(groups, max_size)`), the slice `[-(N//2):]` acts on the group
dimension, and the resulting `N × N` grid multiplies `x` broadcast over
channels. -/
def mask_forward_rows (M R : ℕ) (current_val : List ℚ) (N : ℕ)
    (x : ℕ → ℕ → ℕ → ℚ) : Except Unit (ℕ → ℕ → ℕ → ℚ) :=
  (buildMaskRows N (pySliceLast (N / 2) (current_val.map (oneDMask M R))) 0
      (fun _ _ => 1)).map
    fun g => fun o i j => x o i j * g i j

/-- Constructor arguments of `AttentionConv.__init__` (line 93-94). -/
structure AttnConvCfg where
  in_channels : ℕ
  out_channels : ℕ
  kernel_size : ℕ
  stride : ℕ
  padding : ℕ
  groups : ℕ
  bias : Bool
  R : ℕ
  z_init : ℚ
  image_size : ℕ
  adaptive_span : Bool

/-- The state built by `AttentionConv.__init__`: `kernel_size` is the
stored `self.kernel_size`, `rel_h_len`/`rel_w_len` are the spatial
extents the bias tensors `rel_h`/`rel_w` are allocated with (lines
115-116), and the `mask_*`/`current_val` fields are the contained
`AdaptiveMask` (`max_mask_size = image_size / 2`, `ramp_size = R`,
`init_val = z_init`, shape `(groups, 1)`). -/
structure AttnConvLayer where
  out_channels : ℕ
  kernel_size : ℕ
  stride : ℕ
  padding : ℕ
  groups : ℕ
  rel_h_len : ℕ
  rel_w_len : ℕ
  mask_max_size : ℚ
  mask_steps : ℕ
  mask_ramp_size : ℕ
  current_val : List ℚ
  adaptive_span : Bool

/-- `AttentionConv.__init__` (lines 93-126).  The only fallible step is
the assert at line 110, `out_channels % groups == 0`; the bias tensors
are allocated with the *argument* `kernel_size` (lines 115-116), while
`self.kernel_size` is `image_size + 1` when `adaptive_span` (line 104).
`mask_steps` is the `linspace` step count `image_size / 2` of the
contained mask's template. -/
def attentionConvInit (c : AttnConvCfg) : Except Unit AttnConvLayer :=
  if c.out_channels % c.groups = 0 then
    .ok
      { out_channels := c.out_channels
        kernel_size := if c.adaptive_span then c.image_size + 1 else c.kernel_size
        stride := c.stride
        padding := c.padding
        groups := c.groups
        rel_h_len := c.kernel_size
        rel_w_len := c.kernel_size
        mask_max_size := (c.image_size : ℚ) / 2
        mask_steps := c.image_size / 2
        mask_ramp_size := c.R
        current_val := List.replicate c.groups c.z_init
        adaptive_span := c.adaptive_span }
  else .error ()

/-- A placeholder layer used to project `Except` results. -/
def dummyLayer : AttnConvLayer :=
  { out_channels := 0, kernel_size := 0, stride := 0, padding := 0, groups := 0
    rel_h_len := 0, rel_w_len := 0, mask_max_size := 0, mask_steps := 0
    mask_ramp_size := 0, current_val := [], adaptive_span := false }

/-- Projects a successful construction, `dummyLayer` on error. -/
def layerOrDummy (e : Except Unit AttnConvLayer) : AttnConvLayer :=
  match e with
  | .ok L => L
  | .error _ => dummyLayer

/-- `true` exactly on `.ok`. -/
def exceptIsOk {ε α : Type} : Except ε α → Bool
  | .ok _ => true
  | .error _ => false

/-- Lines 151-157 / 160 of `AttentionConv.forward`: the effective kernel
size of the call.  If `adaptive_span`, it is
`ceil(2 * (get_current_max_size() + 1))`, incremented by 1 when even;
otherwise the stored `self.kernel_size`. -/
def forward_kernel_size (L : AttnConvLayer) : ℤ :=
  if L.adaptive_span then
    let k : ℤ :=
      ⌈(2 : ℚ) * (get_current_max_size L.mask_max_size L.mask_ramp_size
        L.current_val true + 1)⌉
    if k % 2 = 0 then k + 1 else k
  else (L.kernel_size : ℤ)

/-- Line 157 / 161 of `AttentionConv.forward`: the effective padding,
`int((kernel_size - 1) / 2)` in the adaptive case, else the stored
`self.padding`. -/
def forward_padding (L : AttnConvLayer) : ℤ :=
  if L.adaptive_span then (forward_kernel_size L - 1) / 2
  else (L.padding : ℤ)

/-- A 1×1 convolution without bias (`nn.Conv2d(in, out, kernel_size=1,
bias=False)`): output channel `o` at `(i, j)` is
`Σ_c weight[o][c] * x[c][i][j]`. -/
def conv1x1 (in_channels : ℕ) (weight : ℕ → ℕ → ℚ) (x : ℕ → ℕ → ℕ → ℚ) :
    ℕ → ℕ → ℕ → ℚ :=
  fun o i j => ∑ c ∈ Finset.range in_channels, weight o c * x c i j

/-- `F.pad(x, [padding, padding, padding, padding])` on an `h × w` map:
zero outside, shifted input inside. -/
def pad2d (padding h w : ℕ) (x : ℕ → ℕ → ℕ → ℚ) : ℕ → ℕ → ℕ → ℚ :=
  fun c i j =>
    if padding ≤ i ∧ i < h + padding ∧ padding ≤ j ∧ j < w + padding then
      x c (i - padding) (j - padding)
    else 0

/-- `t.unfold(2, kernel_size, stride).unfold(3, kernel_size, stride)`:
the window cell `(a, b)` of the patch at `(i, j)` is
`t[o][i*stride + a][j*stride + b]`. -/
def unfold2 (stride : ℕ) (t : ℕ → ℕ → ℕ → ℚ) : ℕ → ℕ → ℕ → ℕ → ℕ → ℚ :=
  fun o i j a b => t o (i * stride + a) (j * stride + b)

/-- Lines 189-190: split the windowed keys into channel halves, add
`rel_h` (indexed by the vertical window offset `a`) to the first half and
`rel_w` (indexed by the horizontal offset `b`) to the second, and
concatenate back. -/
def addRelBias (C : ℕ) (rel_h rel_w : ℕ → ℕ → ℚ)
    (k : ℕ → ℕ → ℕ → ℕ → ℕ → ℚ) : ℕ → ℕ → ℕ → ℕ → ℕ → ℚ :=
  fun o i j a b =>
    if o < C / 2 then k o i j a b + rel_h o a
    else k o i j a b + rel_w (o - C / 2) b

/-- Line 206, for group count 1: `out = (q_out * k_out).sum(dim=2)`, the
unnormalised similarity of the query at `(i, j)` with window cell `cell`
(cells flattened row-major, `cell = a * kernel_size + b`). -/
def attnLogits (C K : ℕ) (q : ℕ → ℕ → ℕ → ℚ) (k : ℕ → ℕ → ℕ → ℕ → ℕ → ℚ) :
    ℕ → ℕ → ℕ → ℚ :=
  fun i j cell => ∑ o ∈ Finset.range C, q o i j * k o i j (cell / K) (cell % K)

/-- Line 207: `F.softmax(out, dim=-1)` over the flattened window cells.
The exponential of the tensor runtime is an external primitive, passed in
as `expF`. -/
def softmaxLast (expF : ℚ → ℚ) (len : ℕ) (l : ℕ → ℕ → ℕ → ℚ) :
    ℕ → ℕ → ℕ → ℚ :=
  fun i j cell => expF (l i j cell) / ∑ c ∈ Finset.range len, expF (l i j c)

/-- Line 208, for group count 1: multiply the softmax weights with the
windowed values and sum over the window cells. -/
def aggregate (K : ℕ) (w : ℕ → ℕ → ℕ → ℚ) (v : ℕ → ℕ → ℕ → ℕ → ℕ → ℚ) :
    ℕ → ℕ → ℕ → ℚ :=
  fun o i j => ∑ cell ∈ Finset.range (K * K), w i j cell * v o i j (cell / K) (cell % K)

/-- `AttentionConv.forward` (lines 128-212) for one batch element,
`adaptive_span = False` and group count 1: fixed `kernel_size`/`padding`,
biases used at full stored size (lines 186-187), and the unconditional
`self.adaptive_mask(out3)` at line 210 with the `(groups, 1)`-shaped span
parameter `current_val`. -/
def attentionConvForwardFixed (in_channels C kernel_size stride padding h w M R : ℕ)
    (current_val : List ℚ) (expF : ℚ → ℚ) (wq wk wv rel_h rel_w : ℕ → ℕ → ℚ)
    (x : ℕ → ℕ → ℕ → ℚ) : Except Unit (ℕ → ℕ → ℕ → ℚ) :=
  let padded_x := pad2d padding h w x
  let q_out := conv1x1 in_channels wq x
  let k_out := unfold2 stride (conv1x1 in_channels wk padded_x)
  let v_out := unfold2 stride (conv1x1 in_channels wv padded_x)
  let k_rel := addRelBias C rel_h rel_w k_out
  let out2 := softmaxLast expF (kernel_size * kernel_size)
    (attnLogits C kernel_size q_out k_rel)
  let out3 := aggregate kernel_size out2 v_out
  mask_forward_rows M R current_val w out3

/-- The constructor call of the repository's demonstration entry point,
`AttentionConv(3, 16, kernel_size=3, padding=1)`, with the remaining
arguments at their declared defaults (`stride=1, groups=1, bias=False,
R=3, z_init=4, image_size=32, adaptive_span=False`). -/
def default_cfg : AttnConvCfg :=
  { in_channels := 3, out_channels := 16, kernel_size := 3, stride := 1
    padding := 1, groups := 1, bias := false, R := 3, z_init := 4
    image_size := 32, adaptive_span := false }

/-- `default_cfg` with `adaptive_span=True` (claim C1's construction). -/
def cfg_c1 : AttnConvCfg := { default_cfg with adaptive_span := true }

/-- The layer built by `cfg_c1`. -/
def layer_c1 : AttnConvLayer := layerOrDummy (attentionConvInit cfg_c1)

/-- Claim C5's construction: `adaptive_span=True, image_size=32, R=4`. -/
def cfg_c5 : AttnConvCfg := { default_cfg with R := 4, adaptive_span := true }

/-- The layer built by `cfg_c5` after its span parameter has reached
exactly `1.0` for every group (`clamp_param` applied to the default
`z_init = 4` initial value). -/
def layer_c5 : AttnConvLayer :=
  let L := layerOrDummy (attentionConvInit cfg_c5)
  { L with current_val := L.current_val.map clamp_param_val }

/-- `default_cfg` with odd `out_channels = 5` (divisible by `groups = 1`
but not by 2). -/
def cfg_five : AttnConvCfg := { default_cfg with out_channels := 5 }

/-- A configuration violating the `out_channels % groups == 0` assert:
`out_channels = 5`, `groups = 2`. -/
def cfg_odd : AttnConvCfg := { default_cfg with out_channels := 5, groups := 2 }

/-! ### Helper lemmas -/

theorem maxQ_eq_max (a b : ℚ) : maxQ a b = max a b := by
  unfold maxQ
  split
  · exact (max_eq_right (le_of_lt (by assumption))).symm
  · exact (max_eq_left (le_of_not_lt (by assumption))).symm

theorem minQ_eq_min (a b : ℚ) : minQ a b = min a b := by
  unfold minQ
  split
  · exact (min_eq_left (le_of_lt (by assumption))).symm
  · exact (min_eq_right (le_of_not_lt (by assumption))).symm

/-- `get_current_max_size` unclamped value for `include_ramp = false`. -/
theorem get_current_max_size_false (max_size : ℚ) (ramp_size : ℕ)
    (current_val : List ℚ) :
    get_current_max_size max_size ramp_size current_val false =
      max 0 (min max_size (⌈listMax current_val * max_size⌉ : ℚ)) := by
  unfold get_current_max_size
  rw [maxQ_eq_max, minQ_eq_min]
  norm_num

/-- The clamp `max(0, min(max_size, ·))` makes every
`get_current_max_size` result non-negative. -/
theorem get_current_max_size_nonneg (max_size : ℚ) (ramp_size : ℕ)
    (current_val : List ℚ) (include_ramp : Bool) :
    0 ≤ get_current_max_size max_size ramp_size current_val include_ramp := by
  unfold get_current_max_size
  rw [maxQ_eq_max]
  exact le_max_left 0 _

/-- `List.foldl max` is monotone in the initial value and pointwise in
the list. -/
theorem foldlMax_mono {l₁ l₂ : List ℚ} (h : List.Forall₂ (· ≤ ·) l₁ l₂) :
    ∀ {a b : ℚ}, a ≤ b → l₁.foldl max a ≤ l₂.foldl max b := by
  induction h with
  | nil => intro a b hab; simpa using hab
  | cons hxy _ ih => intro a b hab; exact ih (max_le_max hab hxy)

/-- `listMax` is monotone for the pointwise order. -/
theorem listMax_mono {s t : List ℚ} (h : List.Forall₂ (· ≤ ·) s t) :
    listMax s ≤ listMax t := by
  cases h with
  | nil => exact le_refl 0
  | cons ha htl => exact foldlMax_mono htl ha

theorem foldlMax_replicate (a : ℚ) : ∀ n, (List.replicate n a).foldl max a = a := by
  intro n
  induction n with
  | zero => rfl
  | succ n ih => simpa [List.replicate_succ, max_self] using ih

/-- The maximum of a nonempty constant list is the constant. -/
theorem listMax_replicate {g : ℕ} (hg : 0 < g) (v : ℚ) :
    listMax (List.replicate g v) = v := by
  cases g with
  | zero => omega
  | succ n => simpa [List.replicate_succ, listMax] using foldlMax_replicate v n

/-- On a side-1 input the ring loop errors at its second iteration:
iteration 0 touches only `(0,0)` and iteration 1 builds four empty index
lists, so `zip(*indices)` fails. -/
theorem buildMask_side_one_error (a b : ℚ) (t : List ℚ) (g : ℕ → ℕ → ℚ) :
    buildMask 1 (a :: b :: t) 0 g = .error () := rfl

/-- `oneDMask` has one entry per template position. -/
theorem oneDMask_length (M R : ℕ) (span : ℚ) : (oneDMask M R span).length = M := by
  unfold oneDMask maskTemplate
  rw [List.length_map, List.length_map, List.length_range]

/-- Closed form of the grid built for `max_size = 2, ramp_size = 2,
span = 0` on a 5×5 input: ring weights `[1/2, 1]`, ring 1 written after
ring 0, every untouched cell keeps the initial weight `1`. -/
theorem maskValue_grid_5 (r c : ℕ) :
    maskValue 2 2 0 5 r c =
      if (r, c) ∈ ringIndices 5 1 then 1
      else if (r, c) ∈ ringIndices 5 0 then 1 / 2 else 1 := by
  have hw1 : (oneDMask 2 2 0).getD 1 0 = 1 := by
    norm_num [oneDMask, maskTemplate, clampQ, minQ, maxQ]
  have hw0 : (oneDMask 2 2 0).getD 0 0 = 1 / 2 := by
    norm_num [oneDMask, maskTemplate, clampQ, minQ, maxQ]
  rw [maskValue]
  rw [show maskGrid 2 2 0 5 =
      Except.ok (assignCells (ringIndices 5 1) ((oneDMask 2 2 0).getD 1 0)
        (assignCells (ringIndices 5 0) ((oneDMask 2 2 0).getD 0 0)
          fun _ _ => 1)) from rfl]
  simp only [assignCells, hw0, hw1]

/-! ### Claim theorems -/

/-- C1: under `adaptive_span=True` the relative bias tensors are claimed
to be allocated with spatial extent `image_size + 1`; evaluating the
construction `AttentionConv(3, 16, kernel_size=3, image_size=32,
adaptive_span=True)` shows they are allocated with the constructor
argument `kernel_size = 3` instead, even though the stored
`self.kernel_size` (which the forward-pass bias slicing centres on) is
`image_size + 1 = 33`. -/
theorem thm_C1_rel_alloc :
    layer_c1.rel_h_len = 3 ∧ layer_c1.rel_w_len = 3 ∧
      layer_c1.kernel_size = 33 ∧ layer_c1.rel_h_len ≠ cfg_c1.image_size + 1 := by
  refine ⟨rfl, rfl, rfl, ?_⟩
  decide

/-- C2: the claim says ring `i` of the mask receives weight `ramp[i]` on
all four edges of the `i`-th concentric square.  At `max_size=2,
ramp_size=2, span=0` on a 5×5 grid, ring 0 has weight `ramp[0] = 1/2`;
the top-row cell `(0,1)` does receive `1/2`, but the left-column cell
`(1,0)` of the same ring keeps weight `1`: the loop writes only to rows
`i` and `N-1-i` because `bottom, top = left, right` aliases the row
indices. -/
theorem thm_C2_ring_rows_only :
    (ringWeights 2 2 0 5).getD 0 0 = 1 / 2 ∧
      maskValue 2 2 0 5 0 1 = 1 / 2 ∧ maskValue 2 2 0 5 1 0 = 1 := by
  refine ⟨?_, ?_, ?_⟩
  · rw [show ringWeights 2 2 0 5 = oneDMask 2 2 0 from rfl]
    norm_num [oneDMask, maskTemplate, clampQ, minQ, maxQ]
  · rw [maskValue_grid_5, if_neg (by decide), if_pos (by decide)]
  · rw [maskValue_grid_5, if_neg (by decide), if_neg (by decide)]

/-- C3: the claim says the grid is invariant under 90° rotation and under
horizontal and vertical reflection.  At `max_size=2, ramp_size=2, span=0`
on a 5×5 grid all three fail: `(1,0)` maps to `(0,3)` under 90° rotation
but `1 ≠ 1/2`; `(4,0)` maps to `(4,4)` under horizontal reflection but
`1 ≠ 1/2`; `(0,0)` maps to `(4,0)` under vertical reflection but
`1/2 ≠ 1`. -/
theorem thm_C3_symmetry_fails :
    maskValue 2 2 0 5 1 0 ≠ maskValue 2 2 0 5 0 3 ∧
      maskValue 2 2 0 5 4 0 ≠ maskValue 2 2 0 5 4 4 ∧
      maskValue 2 2 0 5 0 0 ≠ maskValue 2 2 0 5 4 0 := by
  have h10 : maskValue 2 2 0 5 1 0 = 1 := by
    rw [maskValue_grid_5, if_neg (by decide), if_neg (by decide)]
  have h03 : maskValue 2 2 0 5 0 3 = 1 / 2 := by
    rw [maskValue_grid_5, if_neg (by decide), if_pos (by decide)]
  have h40 : maskValue 2 2 0 5 4 0 = 1 := by
    rw [maskValue_grid_5, if_neg (by decide), if_neg (by decide)]
  have h44 : maskValue 2 2 0 5 4 4 = 1 / 2 := by
    rw [maskValue_grid_5, if_neg (by decide), if_pos (by decide)]
  have h00 : maskValue 2 2 0 5 0 0 = 1 / 2 := by
    rw [maskValue_grid_5, if_neg (by decide), if_pos (by decide)]
  rw [h10, h03, h40, h44, h00]
  norm_num

/-- C4: in every forward call, if `adaptive_span` the effective kernel
size is `ceil(2 * (get_current_max_size() + 1))` incremented by 1 when
even (hence odd, and the effective padding `(kernel_size - 1) / 2`
satisfies `2 * padding + 1 = kernel_size`); otherwise kernel size and
padding are the construction-time values. -/
theorem thm_C4_effective_kernel (L : AttnConvLayer) :
    if L.adaptive_span = true then
      forward_kernel_size L =
          (if (⌈(2 : ℚ) * (get_current_max_size L.mask_max_size L.mask_ramp_size
                L.current_val true + 1)⌉ : ℤ) % 2 = 0 then
            ⌈(2 : ℚ) * (get_current_max_size L.mask_max_size L.mask_ramp_size
              L.current_val true + 1)⌉ + 1
          else
            ⌈(2 : ℚ) * (get_current_max_size L.mask_max_size L.mask_ramp_size
              L.current_val true + 1)⌉) ∧
        forward_kernel_size L % 2 = 1 ∧
        forward_padding L = (forward_kernel_size L - 1) / 2 ∧
        2 * forward_padding L + 1 = forward_kernel_size L
    else
      forward_kernel_size L = (L.kernel_size : ℤ) ∧
        forward_padding L = (L.padding : ℤ) := by
  by_cases h : L.adaptive_span = true
  · rw [if_pos h]
    set s : ℚ :=
      get_current_max_size L.mask_max_size L.mask_ramp_size L.current_val true with hs
    have hs0 : 0 ≤ s := by
      rw [hs]
      exact get_current_max_size_nonneg _ _ _ _
    have hk2 : (2 : ℤ) ≤ ⌈(2 : ℚ) * (s + 1)⌉ := by
      have : (2 : ℚ) ≤ 2 * (s + 1) := by nlinarith
      exact_mod_cast this.trans (Int.le_ceil _)
    have hfk : forward_kernel_size L =
        (if (⌈(2 : ℚ) * (s + 1)⌉ : ℤ) % 2 = 0 then ⌈(2 : ℚ) * (s + 1)⌉ + 1
         else ⌈(2 : ℚ) * (s + 1)⌉) := by
      rw [forward_kernel_size, if_pos h]
    have hodd : forward_kernel_size L % 2 = 1 := by
      rw [hfk]
      rcases Int.emod_two_eq_zero_or_one ⌈(2 : ℚ) * (s + 1)⌉ with h2 | h2
      · rw [if_pos h2]
        omega
      · rw [if_neg (by omega)]
        exact h2
    have hge : (3 : ℤ) ≤ forward_kernel_size L := by
      rw [hfk]
      split <;> omega
    have hpad : forward_padding L = (forward_kernel_size L - 1) / 2 := by
      rw [forward_padding, if_pos h]
    exact ⟨hfk, hodd, hpad, by rw [hpad]; omega⟩
  · rw [if_neg h]
    exact ⟨by rw [forward_kernel_size, if_neg h], by rw [forward_padding, if_neg h]⟩

/-- C5 counterexample: for the construction `adaptive_span=True,
image_size=32, R=4` with span fraction exactly `1.0` for all groups, the
effective kernel size computed at step 1 of the forward pass is not the
claimed `43`. -/
theorem cex_C5_kernel_not_43 : forward_kernel_size layer_c5 ≠ 43 := by
  norm_num [forward_kernel_size, layer_c5, cfg_c5, default_cfg, attentionConvInit,
    layerOrDummy, clamp_param_val, clampQ, minQ, maxQ, get_current_max_size, listMax]

/-- C5 amended: for that construction the effective kernel size is `35`
(and the effective padding `17`), because `get_current_max_size` clamps
`ceil(1.0 * 16) + 4 = 20` to `max_size = 16` before the kernel formula,
so the kernel is `ceil(2 * (16 + 1)) = 34`, incremented to `35`. -/
theorem thm_C5_kernel_35 :
    forward_kernel_size layer_c5 = 35 ∧ forward_padding layer_c5 = 17 := by
  constructor
  · norm_num [forward_kernel_size, layer_c5, cfg_c5, default_cfg, attentionConvInit,
      layerOrDummy, clamp_param_val, clampQ, minQ, maxQ, get_current_max_size, listMax]
  · norm_num [forward_padding, forward_kernel_size, layer_c5, cfg_c5, default_cfg,
      attentionConvInit, layerOrDummy, clamp_param_val, clampQ, minQ, maxQ,
      get_current_max_size, listMax]

/-- C6: `get_current_max_size(include_ramp=False)` is monotonically
non-decreasing in the stored span parameter values (pointwise order over
the per-group entries) and always lies in `[0, max_size]`, for any
non-negative `max_size`. -/
theorem thm_C6_monotone_bounded (max_size : ℚ) (hms : 0 ≤ max_size)
    (ramp_size : ℕ) (s t : List ℚ) (hst : List.Forall₂ (· ≤ ·) s t) :
    get_current_max_size max_size ramp_size s false ≤
        get_current_max_size max_size ramp_size t false ∧
      0 ≤ get_current_max_size max_size ramp_size s false ∧
      get_current_max_size max_size ramp_size s false ≤ max_size := by
  rw [get_current_max_size_false, get_current_max_size_false]
  refine ⟨?_, le_max_left 0 _, max_le hms (min_le_left _ _)⟩
  refine max_le_max le_rfl (min_le_min le_rfl ?_)
  exact_mod_cast Int.ceil_le_ceil
    (mul_le_mul_of_nonneg_right (listMax_mono hst) hms)

/-- C6 witness: the theorem instantiated at `max_size = 2`,
`ramp_size = 3`, spans `[0] ≤ [1]`. -/
theorem wit_C6_monotone_bounded :
    get_current_max_size 2 3 [0] false ≤ get_current_max_size 2 3 [1] false ∧
      0 ≤ get_current_max_size 2 3 [0] false ∧
      get_current_max_size 2 3 [0] false ≤ 2 :=
  thm_C6_monotone_bounded 2 (by norm_num) 3 [0] [1]
    (List.Forall₂.cons (by norm_num) List.Forall₂.nil)

/-- C7 counterexample: constructing with `out_channels = 5` (not
divisible by 2, divisible by `groups = 1`) does not fail: the
construction succeeds, so the claimed raises-iff-divisibility-violated
contract is false. -/
theorem cex_C7_odd_channels_ok : exceptIsOk (attentionConvInit cfg_five) = true := rfl

/-- C7 amended: for positive group count, construction fails exactly when
`out_channels` is not divisible by `groups`; divisibility by 2 is never
checked at construction. -/
theorem thm_C7_error_iff (c : AttnConvCfg) (_h : 0 < c.groups) :
    exceptIsOk (attentionConvInit c) = false ↔ ¬c.out_channels % c.groups = 0 := by
  unfold attentionConvInit
  split <;> simp_all [exceptIsOk]

/-- C7 witness: the amended theorem at `out_channels = 5, groups = 2`
(construction fails, since `5 % 2 ≠ 0`). -/
theorem wit_C7_error_iff :
    exceptIsOk (attentionConvInit cfg_odd) = false ↔
      ¬cfg_odd.out_channels % cfg_odd.groups = 0 :=
  thm_C7_error_iff cfg_odd (by decide)

/-- C8: the claim says the forward pass on the zero grid of shape
`(1, 3, 8, 8)` with `kernel_size=3, padding=1, groups=1,
adaptive_span=False` returns an all-zero grid.  Instead, for every
softmax primitive, every projection weights, every relative biases and
in fact every input of that shape, the forward pass errors: the span
parameter has shape `(groups, 1) = (1, 1)`, so `one_d_mask` is the 2-D
tensor `(1, 16)`, the ring loop runs once (`len(one_d_mask) = 1`), and
`mask[rows, cols] = one_d_mask[0]` tries to broadcast 16 values onto the
28 cells of ring 0 of the 8×8 grid — the same failure crashes the
repository's own `__main__` demonstration. -/
theorem thm_C8_forward_error (expF : ℚ → ℚ) (wq wk wv rel_h rel_w : ℕ → ℕ → ℚ)
    (x : ℕ → ℕ → ℕ → ℚ) :
    attentionConvForwardFixed 3 16 3 1 1 8 8 16 3 [4] expF wq wk wv rel_h rel_w x =
      .error () := rfl

/-- C9: for every `AdaptiveMask` with `max_size ≥ 2` (default shape
`(1,)`), `forward` on an input whose last spatial dimension is 1 errors
instead of returning a masked input: the slice `[-(1//2):] = [0:]` keeps
the entire ramp, iteration 0 touches only `(0,0)`, and iteration 1 builds
an empty index list whose unpacking `zip(*indices)` fails. -/
theorem thm_C9_side_one_error (M : ℕ) (hM : 2 ≤ M) (R : ℕ) (span : ℚ)
    (x : ℕ → ℕ → ℚ) :
    adaptive_mask_forward M R span 1 x = .error () := by
  have hlen := oneDMask_length M R span
  unfold adaptive_mask_forward maskGrid ringWeights
  rcases hl : oneDMask M R span with _ | ⟨a, _ | ⟨b, rest⟩⟩
  · rw [hl] at hlen
    simp at hlen
    omega
  · rw [hl] at hlen
    simp at hlen
    omega
  · have h1 : pySliceLast (1 / 2) (a :: b :: rest) = a :: b :: rest := rfl
    rw [h1, buildMask_side_one_error]
    rfl

/-- C9 witness: the theorem at `max_size = 2, ramp_size = 1, span = 0`
and the zero input. -/
theorem wit_C9_side_one_error :
    adaptive_mask_forward 2 1 0 1 (fun _ _ => 0) = .error () :=
  thm_C9_side_one_error 2 (by norm_num) 1 0 _

/-- C10: construction stores the span parameter as exactly `z_init` per
group, with no clamping into `[0, 1]`; with the default `z_init = 4` and
a positive group count the stored maximum is `4`, which violates
`[0, 1]`, and only an explicit `clamp_param` maps it to `1`. -/
theorem thm_C10_no_clamp_at_init (c : AttnConvCfg) (L : AttnConvLayer)
    (h : attentionConvInit c = .ok L) :
    L.current_val = List.replicate c.groups c.z_init ∧
      (0 < c.groups → listMax L.current_val = c.z_init) ∧
      (0 < c.groups → c.z_init = 4 → ¬listMax L.current_val ≤ 1) ∧
      clamp_param_val 4 = 1 := by
  have hcv : L.current_val = List.replicate c.groups c.z_init := by
    unfold attentionConvInit at h
    split at h
    · cases h
      rfl
    · exact absurd h (by simp)
  refine ⟨hcv, ?_, ?_, by norm_num [clamp_param_val, clampQ, minQ, maxQ]⟩
  · intro hg
    rw [hcv, listMax_replicate hg]
  · intro hg hz
    rw [hcv, listMax_replicate hg, hz]
    norm_num

/-- C10 witness: the theorem at the repository's default construction
(`groups = 1`, `z_init = 4`). -/
theorem wit_C10_no_clamp_at_init :
    (layerOrDummy (attentionConvInit default_cfg)).current_val =
        List.replicate default_cfg.groups default_cfg.z_init ∧
      ¬listMax (layerOrDummy (attentionConvInit default_cfg)).current_val ≤ 1 :=
  ⟨(thm_C10_no_clamp_at_init default_cfg
      (layerOrDummy (attentionConvInit default_cfg)) rfl).1,
   (thm_C10_no_clamp_at_init default_cfg
      (layerOrDummy (attentionConvInit default_cfg)) rfl).2.2.1 (by decide) rfl⟩

end AdaptiveAttn
